import Mathlib

/-!
Verification of the glustercli command/response translation layer
(`glustercli/cli.py`): a shallow embedding of the command builders, the
transient-busy classifier, the structured-envelope decoder, and the entity
mappers, together with theorems about the specified properties.

The external command executor (`utils.execCmd`) is out of scope of the
source tree; per the external-interface contract it returns an exit code
and the two captured output streams as flat strings and never raises for a
non-zero exit code.  All facade models therefore take the executor's result
`(rc, out, err)` as an argument.  The XML library (`etree`) is likewise
external; its `fromstring` is modelled as an argument of type
`String → Option XElem`.
-/

namespace GlusterCli

/-! ### Python string primitives

Executable models of the Python `str` operations used by the source:
`lower`, `upper`, single-character `replace`, `strip`, substring
containment (`in`), `startswith`/`endswith`, `int()` conversion and
`sep.join` over the characters of a string. -/

/-- Membership of `c` in Python's default `strip` whitespace set. -/
def pyIsSpace (c : Char) : Bool :=
  c = ' ' || c = '\t' || c = '\n' || c = '\r' || c = '\x0b' || c = '\x0c'

/-- Python `s.strip()`: drop leading and trailing whitespace. -/
def pyStrip (s : String) : String :=
  String.mk (((s.data.dropWhile pyIsSpace).reverse.dropWhile pyIsSpace).reverse)

/-- Python `s.upper()` (ASCII letters, as produced by the daemon). -/
def pyUpper (s : String) : String :=
  String.mk (s.data.map Char.toUpper)

/-- Python `s.lower()` (ASCII letters, as produced by the daemon). -/
def pyLower (s : String) : String :=
  String.mk (s.data.map Char.toLower)

/-- Python `s.replace(old, new)` for single-character `old` and `new`. -/
def pyReplaceChar (old new : Char) (s : String) : String :=
  String.mk (s.data.map (fun c => if c = old then new else c))

/-- Python `needle in hay` substring containment. -/
def pyInStr (needle hay : String) : Bool :=
  hay.data.tails.any (fun t => needle.data.isPrefixOf t)

/-- Python `s.startswith(pat)`. -/
def pyStartsWith (s pat : String) : Bool :=
  pat.data.isPrefixOf s.data

/-- Python `s.endswith(pat)`. -/
def pyEndsWith (s pat : String) : Bool :=
  pat.data.reverse.isPrefixOf s.data.reverse

/-- Digits-only conversion used by `pyInt`: nonempty all-digit list. -/
def digitsToNat : List Char → Option Nat
  | [] => none
  | l =>
    if l.all Char.isDigit then
      some (l.foldl (fun n c => n * 10 + (c.toNat - 48)) 0)
    else
      none

/-- Python `int(s)`: optional surrounding whitespace, optional sign,
then a nonempty digit string; `ValueError` is `none`. -/
def pyInt (s : String) : Option Int :=
  match (pyStrip s).data with
  | '-' :: ds => (digitsToNat ds).map (fun n => -(n : Int))
  | '+' :: ds => (digitsToNat ds).map (fun n => (n : Int))
  | ds => (digitsToNat ds).map (fun n => (n : Int))

/-- Python `sep.join(s)` where `s` is iterated as a string, i.e. the
characters of `s` joined by `sep`. -/
def pyJoinChars (sep : String) (s : String) : String :=
  String.intercalate sep (s.data.map (fun c => String.mk [c]))

/-! ### Constants and enumerated string vocabularies (cli.py lines 32-112) -/

/-- Resolved path of the external tool (`utils.CommandPath("gluster",
"/usr/sbin/gluster")`). -/
def glusterCmdPath : String := "/usr/sbin/gluster"

/-- The transient-busy marker text (`_TRANS_IN_PROGRESS`). -/
def TRANS_IN_PROGRESS : String := "another transaction is in progress"

namespace BrickStatus

def PAUSED : String := "PAUSED"

def COMPLETED : String := "COMPLETED"

def RUNNING : String := "RUNNING"

def UNKNOWN : String := "UNKNOWN"

def NA : String := "NA"

end BrickStatus

namespace VolumeStatus

def ONLINE : String := "ONLINE"

def OFFLINE : String := "OFFLINE"

end VolumeStatus

namespace TransportType

def TCP : String := "TCP"

def RDMA : String := "RDMA"

end TransportType

/-! ### Base command vectors (cli.py lines 65-82) -/

def glusterVolCmd : List String := [glusterCmdPath, "--mode=script", "volume"]

def glusterPeerCmd : List String := [glusterCmdPath, "--mode=script", "peer"]

def glusterSystemCmd : List String := [glusterCmdPath, "system::"]

def glusterVolGeoRepCmd : List String := glusterVolCmd ++ ["geo-replication"]

def glusterSnapshotCmd : List String := [glusterCmdPath, "--mode=script", "snapshot"]

/-! ### XML response trees

Model of the `etree` element values the decoder walks: a tag, an optional
text, and a list of children.  `findallP`/`findP` model
`ElementTree.findall`/`find` for the slash-separated tag paths the source
uses (path given as the list of its segments). -/

inductive XElem where
  | mk (tag : String) (text : Option String) (children : List XElem)

def XElem.tagOf : XElem → String
  | .mk t _ _ => t

def XElem.textOf : XElem → Option String
  | .mk _ tx _ => tx

def XElem.childrenOf : XElem → List XElem
  | .mk _ _ cs => cs

/-- `ElementTree.findall` for a path of tag segments, in document order. -/
def findallP : List String → XElem → List XElem
  | [], e => [e]
  | t :: rest, e =>
    (e.childrenOf.filter (fun c => c.tagOf == t)).flatMap (findallP rest)

/-- `ElementTree.find`: first match of the path, if any. -/
def findP (p : List String) (e : XElem) : Option XElem :=
  (findallP p e).head?

/-! ### Error taxonomy

`GlusterErr` models the exceptions a facade call can surface:
`busy` (`GlusterBusy`), `xmlError` (`GlusterXMLError`), `cmdFailed`
(`GlusterCmdFailed`, carrying the effective failure code and the envelope
message), and `pyExc` for unhandled Python exceptions that escape the
module (the source raises `IndexError` on empty replace-brick output,
`TypeError` on an envelope field with no text, and `NameError` in
`peerDetach` because `GlusterPeerNotFound` is never defined). -/

inductive GlusterErr where
  | busy (cmd : List String) (rc : Int) (out err : String)
  | xmlError (cmd : List String) (xml : String)
  | cmdFailed (cmd : List String) (rc : Int) (err : Option String)
  | pyExc (kind : String)

/-- The Python exceptions that can arise while reading the envelope fields;
`attrError` and `valueError` are members of `_etreeExceptions`, while
`typeError` (from `int(None)`) is not and escapes uncaught. -/
inductive PyExc where
  | attrError
  | valueError
  | typeError
deriving DecidableEq

/-- Reading `elem.find(path).text`: a failed `find` gives `None.text`,
an `AttributeError`. -/
def textAttr (e : XElem) (path : List String) : Except PyExc (Option String) :=
  match findP path e with
  | none => .error .attrError
  | some el => .ok el.textOf

/-- Python `int(text)` on an optional text: `int(None)` is a `TypeError`,
a malformed string a `ValueError`. -/
def intOfText : Option String → Except PyExc Int
  | none => .error .typeError
  | some s =>
    match pyInt s with
    | none => .error .valueError
    | some n => .ok n

/-- The three envelope fields read inside the `try` of `_execGlusterXml`,
in source order: `int(opRet.text)`, `opErrstr.text`, `int(opErrno.text)`. -/
def extractEnvelope (tree : XElem) : Except PyExc (Int × Option String × Int) := do
  let rvT ← textAttr tree ["opRet"]
  let rv ← intOfText rvT
  let msg ← textAttr tree ["opErrstr"]
  let errNoT ← textAttr tree ["opErrno"]
  let errNo ← intOfText errNoT
  return (rv, msg, errNo)

/-! ### Executor pipeline (cli.py lines 134-165) -/

/-- `_throwIfBusy(cmd, rc, out, err)`: raise `GlusterBusy` when the marker
is contained in `(out + err).lower()`. -/
def throwIfBusy (cmd : List String) (rc : Int) (out err : String) : Option GlusterErr :=
  if pyInStr TRANS_IN_PROGRESS (pyLower (out ++ err)) then
    some (.busy cmd rc out err)
  else
    none

/-- `_execGluster(cmd)` given the executor's result: busy check, then the
raw triple is returned unchanged (the exit code is never inspected). -/
def execGluster (cmd : List String) (rc : Int) (out err : String) :
    Except GlusterErr (Int × String × String) :=
  match throwIfBusy cmd rc out err with
  | some e => .error e
  | none => .ok (rc, out, err)

/-- `_execGlusterXml(cmd)` given the executor's result and the XML parser:
append `--xml`, busy check, parse, read the envelope, and classify.
`etree.ParseError`, `AttributeError` and `ValueError` become
`GlusterXMLError(cmd, out)`; a `TypeError` from `int(None)` is not a
member of `_etreeExceptions` and escapes. -/
def execGlusterXml (parseXml : String → Option XElem) (cmd : List String)
    (rc : Int) (out err : String) : Except GlusterErr XElem :=
  let cmdX := cmd ++ ["--xml"]
  match throwIfBusy cmdX rc out err with
  | some e => .error e
  | none =>
    match parseXml out with
    | none => .error (.xmlError cmdX out)
    | some tree =>
      match extractEnvelope tree with
      | .error .typeError => .error (.pyExc "TypeError")
      | .error _ => .error (.xmlError cmdX out)
      | .ok (rv, msg, errNo) =>
        if rv = 0 then
          .ok tree
        else
          .error (.cmdFailed cmdX (if errNo ≠ 0 then errNo else rv) msg)

/-! ### Optional-argument helpers shared by the command builders -/

/-- `if force: command.append('force')`. -/
def forceArg (force : Bool) : List String :=
  if force then ["force"] else []

/-- Append a string argument when it is truthy (`if arg: command.append(arg)`
for a keyword argument whose default is `None`). -/
def optArg : Option String → List String
  | none => []
  | some s => if s = "" then [] else [s]

/-- Append a string argument when it is truthy, for a keyword argument
whose default is the empty string. -/
def strArg (s : String) : List String :=
  if s = "" then [] else [s]

/-- `if count: command += [kw, "%s" % count]` for an integer count whose
default is `0`. -/
def countArg (kw : String) (n : Nat) : List String :=
  if n = 0 then [] else [kw, toString n]

/-! ### Facade models needed by the claims

Each model takes the executor's result `(rc, out, err)` (and, where the
source decodes XML, the parser) and returns the call's outcome. -/

/-- `volumeStart(volumeName, force)`: builds the `start` command, runs it
through `_execGluster` (not `_execGlusterXml`; no `--xml` is appended and
the exit code is never inspected) and returns `True`. -/
def volumeStart (volumeName : String) (force : Bool) (rc : Int) (out err : String) :
    Except GlusterErr Bool :=
  let command := glusterVolCmd ++ ["start", volumeName] ++ forceArg force
  match execGluster command rc out err with
  | .error e => .error e
  | .ok _ => .ok true

/-- `peerDetach(hostName, force)`: on `GlusterCmdFailed` with effective
code 2 the source executes `raise GlusterPeerNotFound(hostName)`, but no
class of that name is defined or imported anywhere in the module, so
evaluating the name raises an unhandled `NameError`; every other error
propagates unchanged. -/
def peerDetach (hostName : String) (force : Bool) (parseXml : String → Option XElem)
    (rc : Int) (out err : String) : Except GlusterErr Bool :=
  let command := glusterPeerCmd ++ ["detach", hostName] ++ forceArg force
  match execGlusterXml parseXml command rc out err with
  | .ok _ => .ok true
  | .error (.cmdFailed c r m) =>
    if r = 2 then .error (.pyExc "NameError") else .error (.cmdFailed c r m)
  | .error e => .error e

/-- `volumeReplaceBrickStatus(volumeName, existingBrick, newBrick)`: runs
the free-text `status` command through `_execGluster`.  The executor
returns the captured output as a flat string, so `"\n".join(out)`
interleaves its characters with newlines and `out[0]` is its first
character (`IndexError` when the output is empty); the marker chain is
then matched against that single stripped, upper-cased character. -/
def volumeReplaceBrickStatus (volumeName existingBrick newBrick : String)
    (rc : Int) (out err : String) : Except GlusterErr (String × String) :=
  let command := glusterVolCmd ++ ["replace-brick", volumeName, existingBrick,
    newBrick, "status"]
  match execGluster command rc out err with
  | .error e => .error e
  | .ok _ =>
    let message := pyJoinChars "\n" out
    match out.data with
    | [] => .error (.pyExc "IndexError")
    | c :: _ =>
      let statLine := pyUpper (pyStrip (String.mk [c]))
      if pyInStr BrickStatus.PAUSED statLine then
        .ok (BrickStatus.PAUSED, message)
      else if pyEndsWith statLine "MIGRATION COMPLETE" then
        .ok (BrickStatus.COMPLETED, message)
      else if pyStartsWith statLine "NUMBER OF FILES MIGRATED" then
        .ok (BrickStatus.RUNNING, message)
      else if pyEndsWith statLine "UNKNOWN" then
        .ok (BrickStatus.UNKNOWN, message)
      else
        .ok (BrickStatus.NA, message)

/-! ### Volume-info entity mapper (cli.py lines 318-359) -/

/-- The decoded per-volume record built by `_parseVolumeInfo`.  Fields
read as `el.find(tag).text` are optional texts; `volumeType` and
`volumeStatus` require the text to be present because the source calls
`.upper()` on it. -/
structure VolumeInfo where
  volumeName : Option String
  uuid : Option String
  volumeType : String
  volumeStatus : String
  brickCount : Option String
  distCount : Option String
  stripeCount : Option String
  replicaCount : Option String
  transportType : List String
  bricks : List (Option String)
  options : List (Option String × Option String)
  bricksInfo : List (Option String × Option String)

/-- `el.find(path).text` as an optional value: `none` models the
`AttributeError` from a failed `find`. -/
def textOfFind (el : XElem) (path : List String) : Option (Option String) :=
  (findP path el).map XElem.textOf

/-- The transport-type decode of `_parseVolumeInfo`: `"0"` gives TCP,
`"1"` gives RDMA, anything else (including an absent text) gives both. -/
def transportTypeOf (t : Option String) : List String :=
  if t = some "0" then [TransportType.TCP]
  else if t = some "1" then [TransportType.RDMA]
  else [TransportType.TCP, TransportType.RDMA]

/-- One `bricks/brick` option entry: both `find`s must succeed, their
texts are used as dict key and value. -/
def parseOptionEl (o : XElem) : Option (Option String × Option String) := do
  let k ← textOfFind o ["name"]
  let v ← textOfFind o ["value"]
  return (k, v)

/-- Python dict assignment `d[k] = v`: overwrite in place when the key
exists, otherwise append (insertion order preserved). -/
def upsertOpt (l : List (Option String × Option String)) (k v : Option String) :
    List (Option String × Option String) :=
  if l.any (fun p => p.1 == k) then
    l.map (fun p => if p.1 == k then (k, v) else p)
  else
    l ++ [(k, v)]

/-- The backward-compatibility brick-detail loop: on the first
`AttributeError` (a brick element without a `name` or `hostUuid` child)
stop and return what was collected so far. -/
def parseBricksInfo : List XElem → List (Option String × Option String)
  | [] => []
  | d :: rest =>
    match findP ["name"] d with
    | none => []
    | some ne =>
      match findP ["hostUuid"] d with
      | none => []
      | some he => (ne.textOf, he.textOf) :: parseBricksInfo rest

/-- The loop body of `_parseVolumeInfo` for one `volume` element; `none`
models an `AttributeError` escaping to the caller (which turns it into
`GlusterXMLError`). -/
def parseOneVolume (el : XElem) : Option VolumeInfo := do
  let volumeName ← textOfFind el ["name"]
  let uuid ← textOfFind el ["id"]
  let typeT ← textOfFind el ["typeStr"]
  let typeS ← typeT
  let volumeType := pyReplaceChar '-' '_' (pyUpper typeS)
  let statusT ← textOfFind el ["statusStr"]
  let statusS ← statusT
  let status := pyUpper statusS
  let volumeStatus :=
    if status = "STARTED" then VolumeStatus.ONLINE else VolumeStatus.OFFLINE
  let brickCount ← textOfFind el ["brickCount"]
  let distCount ← textOfFind el ["distCount"]
  let stripeCount ← textOfFind el ["stripeCount"]
  let replicaCount ← textOfFind el ["replicaCount"]
  let transportT ← textOfFind el ["transport"]
  let transportType := transportTypeOf transportT
  let bricks := (findallP ["bricks", "brick"] el).map XElem.textOf
  let options ← (findallP ["options", "option"] el).foldlM
    (fun acc o => (parseOptionEl o).map (fun kv => upsertOpt acc kv.1 kv.2)) []
  let bricksInfo := parseBricksInfo (findallP ["bricks", "brick"] el)
  return { volumeName, uuid, volumeType, volumeStatus, brickCount, distCount,
           stripeCount, replicaCount, transportType, bricks, options, bricksInfo }

/-- Python dict assignment for the `volumes` result dict keyed by the
(optional) volume name. -/
def upsertVolume (l : List (Option String × VolumeInfo)) (k : Option String)
    (v : VolumeInfo) : List (Option String × VolumeInfo) :=
  if l.any (fun p => p.1 == k) then
    l.map (fun p => if p.1 == k then (k, v) else p)
  else
    l ++ [(k, v)]

/-- `_parseVolumeInfo(tree)`: decode every `volInfo/volumes/volume`
element into the `volumes` dict. -/
def parseVolumeInfo (tree : XElem) : Option (List (Option String × VolumeInfo)) :=
  (findallP ["volInfo", "volumes", "volume"] tree).foldlM
    (fun acc el => (parseOneVolume el).map (fun v => upsertVolume acc v.volumeName v)) []

/-! ### Status-token normalization (cli.py lines 565-589 and 812-826) -/

/-- The normalization applied to `statusStr` in
`_parseVolumeRebalanceRemoveBrickStatus`:
`st.replace(' ', '_').replace('-', '_')` followed by `.upper()`. -/
def normStatusToken (st : String) : String :=
  pyUpper (pyReplaceChar '-' '_' (pyReplaceChar ' ' '_' st))

/-- The normalization applied to task type and status strings in
`_parseVolumeTasks`: `.upper().replace('-', '_').replace(' ', '_')`. -/
def normTaskToken (s : String) : String :=
  pyReplaceChar ' ' '_' (pyReplaceChar '-' '_' (pyUpper s))

/-! ### The facade operations and their command vectors

One constructor per public entry point of cli.py, carrying the call's
parameters.  `facadeArgv` reproduces each operation's command vector
exactly as built by the source before execution; `facadeViaXml` records
which executor helper the source routes the command through
(`_execGlusterXml` appends `--xml`, `_execGluster` does not);
`facadeExecArgv` is the vector actually handed to the executor. -/

inductive FacadeOp where
  | volumeStatus (volumeName : String) (brick : Option String) (statusVariant : Option String)
  | volumeInfo (volumeName : Option String) (remoteServer : Option String)
  | volumeCreate (volumeName : String) (brickList : List String)
      (replicaCount : Nat) (stripeCount : Nat) (transportList : List String) (force : Bool)
  | volumeStart (volumeName : String) (force : Bool)
  | volumeStop (volumeName : String) (force : Bool)
  | volumeDelete (volumeName : String)
  | volumeSet (volumeName : String) (optionName : String) (value : String)
  | volumeSetHelpXml
  | volumeReset (volumeName : String) (optionName : String) (force : Bool)
  | volumeAddBrick (volumeName : String) (brickList : List String)
      (replicaCount : Nat) (stripeCount : Nat) (force : Bool)
  | volumeRebalanceStart (volumeName : String) (rebalanceType : String) (force : Bool)
  | volumeRebalanceStop (volumeName : String) (force : Bool)
  | volumeRebalanceStatus (volumeName : String)
  | volumeReplaceBrickStart (volumeName existingBrick newBrick : String)
  | volumeReplaceBrickAbort (volumeName existingBrick newBrick : String)
  | volumeReplaceBrickPause (volumeName existingBrick newBrick : String)
  | volumeReplaceBrickStatus (volumeName existingBrick newBrick : String)
  | volumeReplaceBrickCommit (volumeName existingBrick newBrick : String) (force : Bool)
  | volumeRemoveBrickStart (volumeName : String) (brickList : List String) (replicaCount : Nat)
  | volumeRemoveBrickStop (volumeName : String) (brickList : List String) (replicaCount : Nat)
  | volumeRemoveBrickStatus (volumeName : String) (brickList : List String) (replicaCount : Nat)
  | volumeRemoveBrickCommit (volumeName : String) (brickList : List String) (replicaCount : Nat)
  | volumeRemoveBrickForce (volumeName : String) (brickList : List String) (replicaCount : Nat)
  | peerProbe (hostName : String)
  | peerDetach (hostName : String) (force : Bool)
  | peerStatus
  | volumeProfileStart (volumeName : String)
  | volumeProfileStop (volumeName : String)
  | volumeProfileInfo (volumeName : String) (nfs : Bool)
  | volumeTasks (volumeName : String)
  | volumeGeoRepSessionStart (volumeName remoteHost remoteVolumeName : String) (force : Bool)
  | volumeGeoRepSessionStop (volumeName remoteHost remoteVolumeName : String) (force : Bool)
  | volumeGeoRepStatus (volumeName : Option String)
      (remoteHost : Option String) (remoteVolumeName : Option String) (detail : Bool)
  | volumeGeoRepSessionPause (volumeName remoteHost remoteVolumeName : String) (force : Bool)
  | volumeGeoRepSessionResume (volumeName remoteHost remoteVolumeName : String) (force : Bool)
  | volumeGeoRepConfig (volumeName remoteHost remoteVolumeName : String)
      (optionName : Option String) (optionValue : Option String)
  | snapshotCreate (volumeName snapName : String) (snapDescription : Option String) (force : Bool)
  | snapshotDelete (volumeName : Option String) (snapName : Option String)
  | snapshotActivate (snapName : String) (force : Bool)
  | snapshotDeactivate (snapName : String)
  | snapshotRestore (snapName : String)

/-- Parameter-free discriminator for the facade operations. -/
inductive OpKind where
  | volumeStatus | volumeInfo | volumeCreate | volumeStart | volumeStop
  | volumeDelete | volumeSet | volumeSetHelpXml | volumeReset | volumeAddBrick
  | volumeRebalanceStart | volumeRebalanceStop | volumeRebalanceStatus
  | volumeReplaceBrickStart | volumeReplaceBrickAbort | volumeReplaceBrickPause
  | volumeReplaceBrickStatus | volumeReplaceBrickCommit
  | volumeRemoveBrickStart | volumeRemoveBrickStop | volumeRemoveBrickStatus
  | volumeRemoveBrickCommit | volumeRemoveBrickForce
  | peerProbe | peerDetach | peerStatus
  | volumeProfileStart | volumeProfileStop | volumeProfileInfo | volumeTasks
  | volumeGeoRepSessionStart | volumeGeoRepSessionStop | volumeGeoRepStatus
  | volumeGeoRepSessionPause | volumeGeoRepSessionResume | volumeGeoRepConfig
  | snapshotCreate | snapshotDelete | snapshotActivate | snapshotDeactivate
  | snapshotRestore
deriving DecidableEq

def opKind : FacadeOp → OpKind
  | .volumeStatus .. => .volumeStatus
  | .volumeInfo .. => .volumeInfo
  | .volumeCreate .. => .volumeCreate
  | .volumeStart .. => .volumeStart
  | .volumeStop .. => .volumeStop
  | .volumeDelete .. => .volumeDelete
  | .volumeSet .. => .volumeSet
  | .volumeSetHelpXml => .volumeSetHelpXml
  | .volumeReset .. => .volumeReset
  | .volumeAddBrick .. => .volumeAddBrick
  | .volumeRebalanceStart .. => .volumeRebalanceStart
  | .volumeRebalanceStop .. => .volumeRebalanceStop
  | .volumeRebalanceStatus .. => .volumeRebalanceStatus
  | .volumeReplaceBrickStart .. => .volumeReplaceBrickStart
  | .volumeReplaceBrickAbort .. => .volumeReplaceBrickAbort
  | .volumeReplaceBrickPause .. => .volumeReplaceBrickPause
  | .volumeReplaceBrickStatus .. => .volumeReplaceBrickStatus
  | .volumeReplaceBrickCommit .. => .volumeReplaceBrickCommit
  | .volumeRemoveBrickStart .. => .volumeRemoveBrickStart
  | .volumeRemoveBrickStop .. => .volumeRemoveBrickStop
  | .volumeRemoveBrickStatus .. => .volumeRemoveBrickStatus
  | .volumeRemoveBrickCommit .. => .volumeRemoveBrickCommit
  | .volumeRemoveBrickForce .. => .volumeRemoveBrickForce
  | .peerProbe .. => .peerProbe
  | .peerDetach .. => .peerDetach
  | .peerStatus => .peerStatus
  | .volumeProfileStart .. => .volumeProfileStart
  | .volumeProfileStop .. => .volumeProfileStop
  | .volumeProfileInfo .. => .volumeProfileInfo
  | .volumeTasks .. => .volumeTasks
  | .volumeGeoRepSessionStart .. => .volumeGeoRepSessionStart
  | .volumeGeoRepSessionStop .. => .volumeGeoRepSessionStop
  | .volumeGeoRepStatus .. => .volumeGeoRepStatus
  | .volumeGeoRepSessionPause .. => .volumeGeoRepSessionPause
  | .volumeGeoRepSessionResume .. => .volumeGeoRepSessionResume
  | .volumeGeoRepConfig .. => .volumeGeoRepConfig
  | .snapshotCreate .. => .snapshotCreate
  | .snapshotDelete .. => .snapshotDelete
  | .snapshotActivate .. => .snapshotActivate
  | .snapshotDeactivate .. => .snapshotDeactivate
  | .snapshotRestore .. => .snapshotRestore

/-- The command vector each facade operation builds, exactly as in the
source, before the executor helper is invoked. -/
def facadeArgv : FacadeOp → List String
  | .volumeStatus volumeName brick statusVariant =>
    glusterVolCmd ++ ["status", volumeName] ++ optArg brick ++ optArg statusVariant
  | .volumeInfo volumeName remoteServer =>
    glusterVolCmd ++ ["info"] ++
      (match remoteServer with
       | none => []
       | some r => if r = "" then [] else ["--remote-host=" ++ r]) ++
      optArg volumeName
  | .volumeCreate volumeName brickList replicaCount stripeCount transportList force =>
    glusterVolCmd ++ ["create", volumeName] ++ countArg "stripe" stripeCount ++
      countArg "replica" replicaCount ++
      (if transportList.isEmpty then []
       else ["transport", String.intercalate "," transportList]) ++
      brickList ++ forceArg force
  | .volumeStart volumeName force =>
    glusterVolCmd ++ ["start", volumeName] ++ forceArg force
  | .volumeStop volumeName force =>
    glusterVolCmd ++ ["stop", volumeName] ++ forceArg force
  | .volumeDelete volumeName =>
    glusterVolCmd ++ ["delete", volumeName]
  | .volumeSet volumeName optionName value =>
    glusterVolCmd ++ ["set", volumeName, optionName, value]
  | .volumeSetHelpXml =>
    glusterVolCmd ++ ["set", "help-xml"]
  | .volumeReset volumeName optionName force =>
    glusterVolCmd ++ ["reset", volumeName] ++ strArg optionName ++ forceArg force
  | .volumeAddBrick volumeName brickList replicaCount stripeCount force =>
    glusterVolCmd ++ ["add-brick", volumeName] ++ countArg "stripe" stripeCount ++
      countArg "replica" replicaCount ++ brickList ++ forceArg force
  | .volumeRebalanceStart volumeName rebalanceType force =>
    glusterVolCmd ++ ["rebalance", volumeName] ++ strArg rebalanceType ++
      ["start"] ++ forceArg force
  | .volumeRebalanceStop volumeName force =>
    glusterVolCmd ++ ["rebalance", volumeName, "stop"] ++ forceArg force
  | .volumeRebalanceStatus volumeName =>
    glusterVolCmd ++ ["rebalance", volumeName, "status"]
  | .volumeReplaceBrickStart volumeName existingBrick newBrick =>
    glusterVolCmd ++ ["replace-brick", volumeName, existingBrick, newBrick, "start"]
  | .volumeReplaceBrickAbort volumeName existingBrick newBrick =>
    glusterVolCmd ++ ["replace-brick", volumeName, existingBrick, newBrick, "abort"]
  | .volumeReplaceBrickPause volumeName existingBrick newBrick =>
    glusterVolCmd ++ ["replace-brick", volumeName, existingBrick, newBrick, "pause"]
  | .volumeReplaceBrickStatus volumeName existingBrick newBrick =>
    glusterVolCmd ++ ["replace-brick", volumeName, existingBrick, newBrick, "status"]
  | .volumeReplaceBrickCommit volumeName existingBrick newBrick force =>
    glusterVolCmd ++ ["replace-brick", volumeName, existingBrick, newBrick, "commit"] ++
      forceArg force
  | .volumeRemoveBrickStart volumeName brickList replicaCount =>
    glusterVolCmd ++ ["remove-brick", volumeName] ++ countArg "replica" replicaCount ++
      brickList ++ ["start"]
  | .volumeRemoveBrickStop volumeName brickList replicaCount =>
    glusterVolCmd ++ ["remove-brick", volumeName] ++ countArg "replica" replicaCount ++
      brickList ++ ["stop"]
  | .volumeRemoveBrickStatus volumeName brickList replicaCount =>
    glusterVolCmd ++ ["remove-brick", volumeName] ++ countArg "replica" replicaCount ++
      brickList ++ ["status"]
  | .volumeRemoveBrickCommit volumeName brickList replicaCount =>
    glusterVolCmd ++ ["remove-brick", volumeName] ++ countArg "replica" replicaCount ++
      brickList ++ ["commit"]
  | .volumeRemoveBrickForce volumeName brickList replicaCount =>
    glusterVolCmd ++ ["remove-brick", volumeName] ++ countArg "replica" replicaCount ++
      brickList ++ ["force"]
  | .peerProbe hostName =>
    glusterPeerCmd ++ ["probe", hostName]
  | .peerDetach hostName force =>
    glusterPeerCmd ++ ["detach", hostName] ++ forceArg force
  | .peerStatus =>
    glusterPeerCmd ++ ["status"]
  | .volumeProfileStart volumeName =>
    glusterVolCmd ++ ["profile", volumeName, "start"]
  | .volumeProfileStop volumeName =>
    glusterVolCmd ++ ["profile", volumeName, "stop"]
  | .volumeProfileInfo volumeName nfs =>
    glusterVolCmd ++ ["profile", volumeName, "info"] ++ (if nfs then ["nfs"] else [])
  | .volumeTasks volumeName =>
    glusterVolCmd ++ ["status", volumeName, "tasks"]
  | .volumeGeoRepSessionStart volumeName remoteHost remoteVolumeName force =>
    glusterVolGeoRepCmd ++ [volumeName, remoteHost ++ "::" ++ remoteVolumeName, "start"] ++
      forceArg force
  | .volumeGeoRepSessionStop volumeName remoteHost remoteVolumeName force =>
    glusterVolGeoRepCmd ++ [volumeName, remoteHost ++ "::" ++ remoteVolumeName, "stop"] ++
      forceArg force
  | .volumeGeoRepStatus volumeName remoteHost remoteVolumeName detail =>
    glusterVolGeoRepCmd ++ optArg volumeName ++
      (match remoteHost, remoteVolumeName with
       | some h, some v => if h = "" ∨ v = "" then [] else [h ++ "::" ++ v]
       | _, _ => []) ++
      ["status"] ++ (if detail then ["detail"] else [])
  | .volumeGeoRepSessionPause volumeName remoteHost remoteVolumeName force =>
    glusterVolGeoRepCmd ++ [volumeName, remoteHost ++ "::" ++ remoteVolumeName, "pause"] ++
      forceArg force
  | .volumeGeoRepSessionResume volumeName remoteHost remoteVolumeName force =>
    glusterVolGeoRepCmd ++ [volumeName, remoteHost ++ "::" ++ remoteVolumeName, "resume"] ++
      forceArg force
  | .volumeGeoRepConfig volumeName remoteHost remoteVolumeName optionName optionValue =>
    glusterVolGeoRepCmd ++ [volumeName, remoteHost ++ "::" ++ remoteVolumeName, "config"] ++
      (match optionName, optionValue with
       | some n, some v =>
         if n = "" then [] else if v = "" then ["!" ++ n] else [n, v]
       | some n, none => if n = "" then [] else ["!" ++ n]
       | none, _ => [])
  | .snapshotCreate volumeName snapName snapDescription force =>
    glusterSnapshotCmd ++ ["create", snapName, volumeName] ++
      (match snapDescription with
       | none => []
       | some d => if d = "" then [] else ["description", d]) ++
      forceArg force
  | .snapshotDelete volumeName snapName =>
    glusterSnapshotCmd ++ ["delete"] ++
      (match snapName with
       | some s => if s = "" then
           (match volumeName with
            | some v => if v = "" then [] else ["volume", v]
            | none => [])
         else [s]
       | none =>
         match volumeName with
         | some v => if v = "" then [] else ["volume", v]
         | none => [])
  | .snapshotActivate snapName force =>
    glusterSnapshotCmd ++ ["activate", snapName] ++ forceArg force
  | .snapshotDeactivate snapName =>
    glusterSnapshotCmd ++ ["deactivate", snapName]
  | .snapshotRestore snapName =>
    glusterSnapshotCmd ++ ["restore", snapName]

/-- Which executor helper the source routes each operation through:
`true` for `_execGlusterXml` (which appends `--xml`), `false` for the
raw `_execGluster`. -/
def facadeViaXml : FacadeOp → Bool
  | .volumeStatus .. => true
  | .volumeInfo .. => true
  | .volumeCreate .. => true
  | .volumeStart .. => false
  | .volumeStop .. => true
  | .volumeDelete .. => true
  | .volumeSet .. => true
  | .volumeSetHelpXml => false
  | .volumeReset .. => true
  | .volumeAddBrick .. => true
  | .volumeRebalanceStart .. => true
  | .volumeRebalanceStop .. => true
  | .volumeRebalanceStatus .. => true
  | .volumeReplaceBrickStart .. => true
  | .volumeReplaceBrickAbort .. => true
  | .volumeReplaceBrickPause .. => true
  | .volumeReplaceBrickStatus .. => false
  | .volumeReplaceBrickCommit .. => true
  | .volumeRemoveBrickStart .. => true
  | .volumeRemoveBrickStop .. => true
  | .volumeRemoveBrickStatus .. => true
  | .volumeRemoveBrickCommit .. => true
  | .volumeRemoveBrickForce .. => true
  | .peerProbe .. => true
  | .peerDetach .. => true
  | .peerStatus => true
  | .volumeProfileStart .. => true
  | .volumeProfileStop .. => true
  | .volumeProfileInfo .. => true
  | .volumeTasks .. => true
  | .volumeGeoRepSessionStart .. => true
  | .volumeGeoRepSessionStop .. => true
  | .volumeGeoRepStatus .. => true
  | .volumeGeoRepSessionPause .. => true
  | .volumeGeoRepSessionResume .. => true
  | .volumeGeoRepConfig .. => true
  | .snapshotCreate .. => true
  | .snapshotDelete .. => false
  | .snapshotActivate .. => true
  | .snapshotDeactivate .. => true
  | .snapshotRestore .. => true

/-- The argument vector actually handed to the executor: `_execGlusterXml`
appends `--xml` to the built command, `_execGluster` passes it unchanged. -/
def facadeExecArgv (op : FacadeOp) : List String :=
  if facadeViaXml op then facadeArgv op ++ ["--xml"] else facadeArgv op

/-! ### Helper lemmas and concrete fixtures -/

theorem stringMkData (s : String) : String.mk s.data = s := by
  obtain ⟨l⟩ := s
  rfl

theorem listMapSelf {f : Char → Char} : ∀ (l : List Char), (∀ c ∈ l, f c = c) → l.map f = l
  | [], _ => rfl
  | c :: cs, h => by
    simp only [List.map_cons]
    rw [h c (List.mem_cons_self c cs), listMapSelf cs (fun x hx => h x (List.mem_cons_of_mem c hx))]

/-- Constant parser used to instantiate the `etree.fromstring` argument at
concrete envelopes. -/
def constParse (t : XElem) : String → Option XElem := fun _ => some t

/-- A well-formed success envelope (outcome code 0). -/
def envOkTree : XElem :=
  .mk "cliOutput" none
    [.mk "opRet" (some "0") [], .mk "opErrstr" none [], .mk "opErrno" (some "0") []]

/-- Failure envelope of end-to-end scenario B: outcome code 2, detailed
error code 0, error text "volume does not exist". -/
def envFailTree : XElem :=
  .mk "cliOutput" none
    [.mk "opRet" (some "2") [], .mk "opErrstr" (some "volume does not exist") [],
     .mk "opErrno" (some "0") []]

/-- Failure envelope whose effective failure code is 2 (outcome 2,
detailed code 0), the code `peerDetach` reclassifies. -/
def envDetach2 : XElem :=
  .mk "cliOutput" none
    [.mk "opRet" (some "2") [], .mk "opErrstr" (some "peer detach failed") [],
     .mk "opErrno" (some "0") []]

/-- Failure envelope whose effective failure code is 3 (outcome 1,
detailed code 3). -/
def envDetach3 : XElem :=
  .mk "cliOutput" none
    [.mk "opRet" (some "1") [], .mk "opErrstr" (some "detach failed") [],
     .mk "opErrno" (some "3") []]

/-! ### Claim theorems -/

/-- Claim C1: whenever the concatenation of standard output and standard
error contains the case-insensitive transaction-in-progress marker, both
`_execGlusterXml` and `_execGluster` fail with `Busy` carrying the exit
code and both streams, for every exit code (including 0) and independently
of the XML parse outcome — structured decoding is never reached. -/
theorem busy_short_circuit :
    (∀ (parseXml : String → Option XElem) (cmd : List String) (rc : Int) (out err : String),
      pyInStr TRANS_IN_PROGRESS (pyLower (out ++ err)) = true →
      execGlusterXml parseXml cmd rc out err = .error (.busy (cmd ++ ["--xml"]) rc out err))
    ∧ (∀ (cmd : List String) (rc : Int) (out err : String),
      pyInStr TRANS_IN_PROGRESS (pyLower (out ++ err)) = true →
      execGluster cmd rc out err = .error (.busy cmd rc out err)) := by
  constructor
  · intro parseXml cmd rc out err h
    simp [execGlusterXml, throwIfBusy, h]
  · intro cmd rc out err h
    simp [execGluster, throwIfBusy, h]

/-- Witness for C1: a zero exit code with a mixed-case marker in standard
output yields `Busy` even though the parser would deliver a well-formed
success envelope. -/
theorem busy_short_circuit_witness :
    execGlusterXml (constParse envOkTree) ["cmd"] 0
        "Another Transaction is in progress." "" =
      .error (.busy ["cmd", "--xml"] 0 "Another Transaction is in progress." "") :=
  busy_short_circuit.1 (constParse envOkTree) ["cmd"] 0
    "Another Transaction is in progress." "" (by rfl)

/-- Claim C2: a structured envelope with a non-zero outcome code fails with
`CommandFailed` whose effective code is the detailed error code when that
is non-zero and the outcome code otherwise, carrying the envelope's error
message. -/
theorem cmd_failed_effective_code
    (parseXml : String → Option XElem) (cmd : List String) (rc : Int) (out err : String)
    (tree : XElem) (rv : Int) (msg : Option String) (errNo : Int)
    (hb : pyInStr TRANS_IN_PROGRESS (pyLower (out ++ err)) = false)
    (hp : parseXml out = some tree)
    (he : extractEnvelope tree = .ok (rv, msg, errNo))
    (hrv : rv ≠ 0) :
    execGlusterXml parseXml cmd rc out err =
      .error (.cmdFailed (cmd ++ ["--xml"]) (if errNo ≠ 0 then errNo else rv) msg) := by
  simp [execGlusterXml, throwIfBusy, hb, hp, he, hrv]

/-- Witness for C2, end-to-end scenario B: outcome code 2, detailed error
code 0 and message "volume does not exist" give `CommandFailed` with
effective code 2 and that message. -/
theorem cmd_failed_effective_code_witness :
    execGlusterXml (constParse envFailTree) ["cmd"] 0 "<cliOutput/>" "" =
      .error (.cmdFailed ["cmd", "--xml"] 2 (some "volume does not exist")) := by
  have h := cmd_failed_effective_code (constParse envFailTree) ["cmd"] 0 "<cliOutput/>" ""
    envFailTree 2 (some "volume does not exist") 0 (by rfl) rfl (by rfl) (by decide)
  simpa using h

/-- Counterexample to C5 as a specification of intent being met: with an
envelope of effective failure code 2, `peerDetach` does not produce a
distinguished peer-not-found error — the source's
`raise GlusterPeerNotFound(hostName)` references a name that is never
defined, so an unhandled `NameError` escapes; any other non-zero code
propagates unchanged as `CommandFailed`. -/
theorem peer_detach_name_error :
    peerDetach "server2" false (constParse envDetach2) 0 "<cliOutput/>" "" =
      .error (.pyExc "NameError") ∧
    peerDetach "server2" false (constParse envDetach3) 0 "<cliOutput/>" "" =
      .error (.cmdFailed
        ["/usr/sbin/gluster", "--mode=script", "peer", "detach", "server2", "--xml"]
        3 (some "detach failed")) :=
  ⟨rfl, rfl⟩

/-- Claim C7 evaluated on the code: the executor returns the captured
output as a flat string, so `out[0]` is its first character; for an output
whose (single) line contains "PAUSED" and ends with "MIGRATION COMPLETE"
case-insensitively, the result is `NA`, not `PAUSED` — no marker can ever
match a one-character statLine. -/
theorem replace_brick_first_char :
    (volumeReplaceBrickStatus "v1" "h1:/b1" "h1:/b2" 0
        "paused - migration complete" "").map Prod.fst = .ok BrickStatus.NA ∧
    pyInStr BrickStatus.PAUSED (pyUpper "paused - migration complete") = true ∧
    pyEndsWith (pyUpper "paused - migration complete") "MIGRATION COMPLETE" = true ∧
    BrickStatus.NA ≠ BrickStatus.PAUSED := by
  refine ⟨rfl, rfl, rfl, by decide⟩

/-- Claim C8: the transport-type decode is total — "0" gives the
single-element TCP list, "1" the single-element RDMA list, and every other
string both transports. -/
theorem transport_type_total :
    transportTypeOf (some "0") = [TransportType.TCP] ∧
    transportTypeOf (some "1") = [TransportType.RDMA] ∧
    ∀ s : String, s ≠ "0" → s ≠ "1" →
      transportTypeOf (some s) = [TransportType.TCP, TransportType.RDMA] := by
  refine ⟨rfl, rfl, fun s h0 h1 => ?_⟩
  simp [transportTypeOf, h0, h1]

/-- Witness for C8 at the string "2". -/
theorem transport_type_total_witness :
    transportTypeOf (some "2") = [TransportType.TCP, TransportType.RDMA] :=
  transport_type_total.2.2 "2" (by decide) (by decide)

/-- Claim C10: when the captured output of the replace-brick status
command is empty, the facade raises an unhandled `IndexError` from
`out[0]` instead of a typed failure or an `NA` result. -/
theorem replace_brick_empty_output (rc : Int) (volumeName existingBrick newBrick : String) :
    volumeReplaceBrickStatus volumeName existingBrick newBrick rc "" "" =
      .error (.pyExc "IndexError") :=
  rfl

/-- Counterexample to C3: `volumeStart` is a facade operation that invokes
the external tool without appending `--xml` (it is routed through
`_execGluster`), yet it is none of the three exceptions named by the
claim. -/
theorem xml_flag_counterexample :
    facadeExecArgv (FacadeOp.volumeStart "vol1" false) =
      facadeArgv (FacadeOp.volumeStart "vol1" false) ∧
    opKind (FacadeOp.volumeStart "vol1" false) ∉
      [OpKind.volumeSetHelpXml, OpKind.snapshotDelete, OpKind.volumeReplaceBrickStatus] := by
  exact ⟨rfl, by decide⟩

/-- Claim C3 as amended: a facade operation's executed command is its
built command with `--xml` appended exactly when the operation is none of
volume start, the volume-set help listing, snapshot delete, and
replace-brick status. -/
theorem xml_flag_exceptions (op : FacadeOp) :
    facadeExecArgv op = facadeArgv op ++ ["--xml"] ↔
      opKind op ∉ [OpKind.volumeStart, OpKind.volumeSetHelpXml,
        OpKind.snapshotDelete, OpKind.volumeReplaceBrickStatus] := by
  cases op <;> simp [facadeExecArgv, facadeViaXml, opKind]

/-- A concrete volume element whose reported `brickCount` ("5") disagrees
with the two `bricks/brick` elements it lists. -/
def volElemEx : XElem :=
  .mk "volume" none
    [.mk "name" (some "vol1") [],
     .mk "id" (some "uuid-1") [],
     .mk "typeStr" (some "Distributed-Replicate") [],
     .mk "statusStr" (some "Started") [],
     .mk "brickCount" (some "5") [],
     .mk "distCount" (some "1") [],
     .mk "stripeCount" (some "1") [],
     .mk "replicaCount" (some "2") [],
     .mk "transport" (some "0") [],
     .mk "bricks" none [.mk "brick" (some "h1:/b1") [], .mk "brick" (some "h2:/b2") []],
     .mk "options" none []]

/-- A full volume-info response tree around `volElemEx`. -/
def volInfoTreeEx : XElem :=
  .mk "cliOutput" none [.mk "volInfo" none [.mk "volumes" none [volElemEx]]]

/-- The record `_parseVolumeInfo` decodes from `volElemEx`. -/
def volRecordEx : VolumeInfo :=
  { volumeName := some "vol1"
    uuid := some "uuid-1"
    volumeType := "DISTRIBUTED_REPLICATE"
    volumeStatus := VolumeStatus.ONLINE
    brickCount := some "5"
    distCount := some "1"
    stripeCount := some "1"
    replicaCount := some "2"
    transportType := [TransportType.TCP]
    bricks := [some "h1:/b1", some "h2:/b2"]
    options := []
    bricksInfo := [] }

/-- Counterexample to C6: the decoder copies `brickCount` verbatim and
never checks it against the brick list, so a response reporting 5 bricks
while listing 2 decodes successfully with `len(bricks) = 2 ≠ 5`. -/
theorem bricks_length_counterexample :
    parseVolumeInfo volInfoTreeEx = some [(some "vol1", volRecordEx)] ∧
    volRecordEx.bricks.length = 2 ∧ volRecordEx.brickCount = some "5" ∧ (2 : Nat) ≠ 5 := by
  refine ⟨rfl, rfl, rfl, by decide⟩

/-- Claim C6 as amended: every decoded volume's `bricks` list has exactly
one entry per `bricks/brick` element of the response; it therefore equals
the reported `brickCount` only when the daemon's count matches its own
brick list, which the decoder does not enforce. -/
theorem bricks_length_amended (el : XElem) (v : VolumeInfo)
    (h : parseOneVolume el = some v) :
    v.bricks.length = (findallP ["bricks", "brick"] el).length := by
  simp only [parseOneVolume, bind, Option.pure_def, Option.bind_eq_some,
    Option.some.injEq] at h
  obtain ⟨vn, hvn, uu, huu, tT, htT, tS, htS, sT, hsT, sS, hsS, bc, hbc, dc, hdc,
    sc, hsc, rc, hrc, tr, htr, op, hop, hfin⟩ := h
  subst hfin
  simp [List.length_map]

/-- Witness for C6 as amended, at the concrete volume element. -/
theorem bricks_length_witness :
    volRecordEx.bricks.length = (findallP ["bricks", "brick"] volElemEx).length :=
  bricks_length_amended volElemEx volRecordEx rfl

/-- Claim C9: both status-token normalizations of the source (replace
spaces and hyphens with underscores, uppercase) are idempotent — a token
that is already upper-case (no lower-case ASCII letter) and free of spaces
and hyphens is mapped to itself. -/
theorem norm_token_idempotent (s : String)
    (h : ∀ c ∈ s.data, ¬(97 ≤ c.toNat ∧ c.toNat ≤ 122) ∧ c ≠ ' ' ∧ c ≠ '-') :
    normStatusToken s = s ∧ normTaskToken s = s := by
  have hsp : pyReplaceChar ' ' '_' s = s := by
    unfold pyReplaceChar
    rw [listMapSelf s.data (fun c hc => if_neg (h c hc).2.1), stringMkData]
  have hhy : pyReplaceChar '-' '_' s = s := by
    unfold pyReplaceChar
    rw [listMapSelf s.data (fun c hc => if_neg (h c hc).2.2), stringMkData]
  have hup : pyUpper s = s := by
    unfold pyUpper
    rw [listMapSelf s.data (fun c hc => by
      show Char.toUpper c = c
      unfold Char.toUpper
      exact if_neg (h c hc).1), stringMkData]
  constructor
  · show pyUpper (pyReplaceChar '-' '_' (pyReplaceChar ' ' '_' s)) = s
    rw [hsp, hhy, hup]
  · show pyReplaceChar ' ' '_' (pyReplaceChar '-' '_' (pyUpper s)) = s
    rw [hup, hhy, hsp]

/-- Witness for C9 at the already-normalized token "IN_PROGRESS". -/
theorem norm_token_idempotent_witness :
    normStatusToken "IN_PROGRESS" = "IN_PROGRESS" ∧
    normTaskToken "IN_PROGRESS" = "IN_PROGRESS" :=
  norm_token_idempotent "IN_PROGRESS" (by decide)

end GlusterCli
